import Mathlib

/-!
# Verification of the TakatVideo camera/video-session orchestration core

Shallow embedding of `opentakserver/blueprints/TakatVideo_api/util.py` and
`opentakserver/blueprints/TakatVideo_api/Video_Object.py`, together with
proofs about the specified properties of the credential manager, the
endpoint-address object, the MediaMTX path configuration, the ffmpeg
command builder, and the camera/video objects.

External effects (random generation, HTTP traffic, the textual `repr` of a
Python bound method) are modelled as explicit parameters; everything else
follows the Python source line by line.
-/

/-! ## Python-style values

The MediaMTX path configuration stores strings, booleans, integers and an
optional integer list (`rpiCameraAWBGains : list[int] | None`).  A Python
object's `__dict__` is an insertion-ordered mapping from attribute names to
values, which we embed as an association list. -/

inductive PyVal where
  | str (s : String)
  | bool (b : Bool)
  | int (n : Int)
  | intListOpt (l : Option (List Int))
deriving DecidableEq

/-- Python exceptions that the embedded code can raise. -/
inductive PyErr where
  | attributeError (msg : String)
  | typeError (msg : String)
  | valueError (msg : String)
  | notImplementedError (msg : String)
deriving DecidableEq

/-! ## `Safe_Link` (util.py lines 8-90)

A validated network endpoint.  Python's `ipaddress.ip_address(value)`
(standard-library behaviour, external to this repository) is abstracted as
a boolean oracle `ipOk`; the claims proved below hold for every oracle. -/

structure SafeLink where
  Protocol : String
  Host : String
  Port : Option Int
  URL : String
  allowed_protocols : List String
  Hyperlink : String
deriving DecidableEq

/-- `Safe_Link.DEFAULT_PROTOCOL` -/
def SafeLink.DEFAULT_PROTOCOL : String := "http"

/-- `Safe_Link.DEFAULT_HOST` -/
def SafeLink.DEFAULT_HOST : String := "127.0.0.1"

/-- `Safe_Link.ALLOWED_PROTOCOLS` (a class constant). -/
def SafeLink.ALLOWED_PROTOCOLS : List String := ["http", "https"]

/-- One character of the hostname regex `^[a-zA-Z0-9._-]+$`. -/
def hostChar (c : Char) : Bool :=
  c.isAlpha || c.isDigit || c == '.' || c == '_' || c == '-'

/-- `re.match(r'^[a-zA-Z0-9._-]+$', value) is not None`. -/
def hostRegexOk (value : String) : Bool :=
  !value.data.isEmpty && value.data.all hostChar

/-- `Safe_Link.is_safe_hostname`: `ipaddress.ip_address` succeeds, or the
value matches the hostname regex. -/
def is_safe_hostname (ipOk : String → Bool) (value : String) : Bool :=
  ipOk value || hostRegexOk value

/-- `Safe_Link.is_valid_protocol`. -/
def is_valid_protocol (value : String) (allowed : List String) : Bool :=
  allowed.contains value

/-- `Safe_Link.is_valid_port`: not `None` and `0 < value <= 65535`. -/
def is_valid_port : Option Int → Bool
  | none => false
  | some v => decide (0 < v) && decide (v ≤ 65535)

/-- `allowed_protocols or self.ALLOWED_PROTOCOLS` — Python truthiness:
`None` and the empty list both fall back to the default. -/
def resolveAllowed (fallback : List String) : Option (List String) → List String
  | none => fallback
  | some l => if l.isEmpty then fallback else l

/-- `Safe_Link._update_hyperlink` (util.py lines 41-47), as a pure rendering
of the stored fields. -/
def renderHyperlink (protocol host : String) (port : Option Int) (url : String) : String :=
  let protocol_part := protocol ++ "://"
  let port_part := match port with
    | some p => ":" ++ toString p
    | none => ""
  let normalized_url :=
    if url.data.isEmpty then "" else "/" ++ String.mk (url.data.dropWhile (· == '/'))
  let is_ipv6 := host.data.contains ':' && !(List.isPrefixOf "[".data host.data)
  let host_part := if is_ipv6 then "[" ++ host ++ "]" else host
  protocol_part ++ host_part ++ port_part ++ normalized_url

/-- `Safe_Link.__init__` (util.py lines 14-24). -/
def SafeLink.init (ipOk : String → Bool) (protocol host : String) (port : Option Int)
    (path : String) (allowed_protocols : Option (List String)) : SafeLink :=
  let allowed := resolveAllowed SafeLink.ALLOWED_PROTOCOLS allowed_protocols
  let prot := if is_valid_protocol protocol allowed then protocol else SafeLink.DEFAULT_PROTOCOL
  let hst := if is_safe_hostname ipOk host then host else SafeLink.DEFAULT_HOST
  let prt := if is_valid_port port then port else none
  { Protocol := prot
    Host := hst
    Port := prt
    URL := path
    allowed_protocols := allowed
    Hyperlink := renderHyperlink prot hst prt path }

/-- `Safe_Link.Root` (util.py lines 49-50); note the port is rendered by
truthiness here, so a port of `0` (unreachable through validation) or
`None` is omitted. -/
def SafeLink.Root (l : SafeLink) : String :=
  let port_part := match l.Port with
    | some p => if p == 0 then "" else ":" ++ toString p
    | none => ""
  l.Protocol ++ "://" ++ l.Host ++ port_part ++ "/"

/-- `Safe_Link.Update` (util.py lines 52-77): each supplied-and-valid field
replaces the stored one; the hyperlink is recomputed only when something
actually changed. -/
def SafeLink.Update (ipOk : String → Bool) (l : SafeLink) (protocol host : Option String)
    (port : Option Int) (url : Option String)
    (allowed_protocols : Option (List String)) : SafeLink :=
  let allowed := resolveAllowed l.allowed_protocols allowed_protocols
  let new_protocol := match protocol with
    | some p => if is_valid_protocol p allowed then p else l.Protocol
    | none => l.Protocol
  let new_host := match host with
    | some h => if is_safe_hostname ipOk h then h else l.Host
    | none => l.Host
  let new_port := match port with
    | some p => if is_valid_port (some p) then some p else l.Port
    | none => l.Port
  let new_url := match url with
    | some u => u
    | none => l.URL
  if new_protocol != l.Protocol || new_host != l.Host || new_port != l.Port
      || new_url != l.URL then
    { l with
      Protocol := new_protocol
      Host := new_host
      Port := new_port
      URL := new_url
      Hyperlink := renderHyperlink new_protocol new_host new_port new_url }
  else
    l

/-- The freshness invariant of `Safe_Link`: the stored hyperlink equals
the rendering of the currently stored protocol, host, port and path. -/
def SafeLinkConsistent (l : SafeLink) : Prop :=
  l.Hyperlink = renderHyperlink l.Protocol l.Host l.Port l.URL

/-! ## `OTP_UID_Manager` (util.py lines 195-308)

Random UID/OTP generation (`uuid.uuid4().hex`, `secrets.token_urlsafe`) is
external entropy; each generated value enters the embedding as an explicit
argument. -/

structure OTP_UID_Manager where
  otp : String
  uids : List (String × String)
deriving DecidableEq

/-- `OTP_UID_Manager.__init__`: the supplied UID (or the generated one) is
installed under the name `"primary_uid"`. -/
def OTP_UID_Manager.init (uid : Option String) (genUid : String)
    (otp : Option String) (genOtp : String) : OTP_UID_Manager :=
  { otp := otp.getD genOtp
    uids := [(uid.getD genUid, "primary_uid")] }

/-- `OTP_UID_Manager.valid` (util.py lines 237-239). -/
def OTP_UID_Manager.valid (m : OTP_UID_Manager) (otp uid : String) : Bool :=
  m.otp == otp && m.uids.any (fun p => p.1 == uid)

/-- `OTP_UID_Manager.add_uid` (util.py lines 241-250): append unless the
exact `(uid, name)` pair already exists. -/
def OTP_UID_Manager.add_uid (m : OTP_UID_Manager) (uid name : String) :
    OTP_UID_Manager × Bool :=
  if (uid, name) ∈ m.uids then (m, false)
  else ({ m with uids := m.uids ++ [(uid, name)] }, true)

/-- `OTP_UID_Manager.add_random_uid` (util.py lines 252-256); `genUid` is
the freshly generated UID. -/
def OTP_UID_Manager.add_random_uid (m : OTP_UID_Manager) (genUid name : String) :
    OTP_UID_Manager × String :=
  ({ m with uids := m.uids ++ [(genUid, name)] }, genUid)

/-- The loop body of `OTP_UID_Manager.remove_uid` (util.py lines 258-272):
walk the list; at the first pair whose uid matches, stop with failure if it
is the primary, remove it if the name matches (or none was given),
otherwise keep scanning.  `none` means the operation failed with no
mutation. -/
def removeUidAux (uid : String) (name : Option String) :
    List (String × String) → Option (List (String × String))
  | [] => none
  | (u, n) :: rest =>
    if u == uid then
      if n == "primary_uid" then none
      else if name == none || name == some n then some rest
      else match removeUidAux uid name rest with
        | none => none
        | some r => some ((u, n) :: r)
    else match removeUidAux uid name rest with
      | none => none
      | some r => some ((u, n) :: r)

/-- `OTP_UID_Manager.remove_uid`. -/
def OTP_UID_Manager.remove_uid (m : OTP_UID_Manager) (uid : String)
    (name : Option String) : OTP_UID_Manager × Bool :=
  match removeUidAux uid name m.uids with
  | none => (m, false)
  | some l => ({ m with uids := l }, true)

/-- `OTP_UID_Manager.reset` (util.py lines 226-235): collapse the roster to
a single entry and replace the OTP. -/
def OTP_UID_Manager.reset (m : OTP_UID_Manager) (uid_name : Option (String × String))
    (genUid : String) (otp : Option String) (genOtp : String) : OTP_UID_Manager :=
  let _ := m
  { otp := otp.getD genOtp
    uids := [uid_name.getD (genUid, "primary_uid")] }

/-- `OTP_UID_Manager.get_name`. -/
def OTP_UID_Manager.get_name (m : OTP_UID_Manager) (uid : String) : List String :=
  (m.uids.filter (fun p => p.1 == uid)).map Prod.snd

/-- `OTP_UID_Manager.find_uid_by_name`. -/
def OTP_UID_Manager.find_uid_by_name (m : OTP_UID_Manager) (name : String) : List String :=
  (m.uids.filter (fun p => p.2 == name)).map Prod.fst

/-- Number of roster entries registered under the role `"primary_uid"`. -/
def countPrimary (m : OTP_UID_Manager) : Nat :=
  m.uids.countP (fun p => p.2 == "primary_uid")

/-- One mutating credential-manager operation with arbitrary arguments
(generated random values are arbitrary strings). -/
inductive MStep : OTP_UID_Manager → OTP_UID_Manager → Prop where
  | add (m : OTP_UID_Manager) (uid name : String) :
      MStep m (m.add_uid uid name).1
  | addRandom (m : OTP_UID_Manager) (genUid name : String) :
      MStep m (m.add_random_uid genUid name).1
  | remove (m : OTP_UID_Manager) (uid : String) (name : Option String) :
      MStep m (m.remove_uid uid name).1
  | reset (m : OTP_UID_Manager) (pair : Option (String × String))
      (genUid : String) (otp : Option String) (genOtp : String) :
      MStep m (m.reset pair genUid otp genOtp)

/-- States reachable from `m0` by any sequence of mutating operations. -/
def MReachable (m0 m : OTP_UID_Manager) : Prop :=
  Relation.ReflTransGen MStep m0 m

/-- The same operations, restricted so that no add operation is invoked
with the role `"primary_uid"` and `reset` is only invoked with its default
pair or an explicit pair whose role is `"primary_uid"`. -/
inductive MStepSafe : OTP_UID_Manager → OTP_UID_Manager → Prop where
  | add (m : OTP_UID_Manager) (uid name : String) (h : name ≠ "primary_uid") :
      MStepSafe m (m.add_uid uid name).1
  | addRandom (m : OTP_UID_Manager) (genUid name : String) (h : name ≠ "primary_uid") :
      MStepSafe m (m.add_random_uid genUid name).1
  | remove (m : OTP_UID_Manager) (uid : String) (name : Option String) :
      MStepSafe m (m.remove_uid uid name).1
  | resetDefault (m : OTP_UID_Manager) (genUid : String) (otp : Option String)
      (genOtp : String) :
      MStepSafe m (m.reset none genUid otp genOtp)
  | resetPrimary (m : OTP_UID_Manager) (u genUid : String) (otp : Option String)
      (genOtp : String) :
      MStepSafe m (m.reset (some (u, "primary_uid")) genUid otp genOtp)

/-- States reachable under the restricted operations. -/
def MReachableSafe (m0 m : OTP_UID_Manager) : Prop :=
  Relation.ReflTransGen MStepSafe m0 m

/-! ## `MediaMTX_Path_Config` (Video_Object.py lines 155-302)

The configuration object is its `__dict__`: an insertion-ordered mapping
from attribute names to values.  `hasattr`/`setattr`-driven loading acts on
that mapping. -/

/-- The attributes every Python object inherits from `object` (dunder
names resolvable on any instance). -/
def objectDunderAttrs : List String :=
  ["__class__", "__delattr__", "__dict__", "__dir__", "__doc__", "__eq__",
   "__format__", "__ge__", "__getattribute__", "__getstate__", "__gt__",
   "__hash__", "__init_subclass__", "__le__", "__lt__", "__module__",
   "__ne__", "__new__", "__reduce__", "__reduce_ex__", "__repr__",
   "__setattr__", "__sizeof__", "__str__", "__subclasshook__",
   "__weakref__"]

/-- The attributes of the class `MediaMTX_Path_Config` itself: the methods
defined in its body (lines 162-302) and the attributes inherited from
`object`.  `hasattr(self, key)` is true for these even when `key` is not
in the instance dictionary. -/
def configClassAttrs : List String :=
  ["__init__", "to_dict", "to_json", "update_value", "load_from_dict",
   "load_from_json"] ++ objectDunderAttrs

/-- `hasattr(self, key)`: the key is an instance attribute (a key of
`self.__dict__`) *or* resolves on the class / its bases. -/
def cfgHasattr (c : List (String × PyVal)) (key : String) : Bool :=
  c.any (fun p => p.1 == key) || configClassAttrs.contains key

/-- `setattr(self, key, value)` on the instance dictionary: replace the
value at the first (unique) occurrence of the key, keeping its position;
a key not yet in the dictionary is appended (insertion order), shadowing
any class attribute of the same name. -/
def cfgSetattr : List (String × PyVal) → String → PyVal → List (String × PyVal)
  | [], key, value => [(key, value)]
  | (k, v) :: rest, key, value =>
    if k == key then (k, value) :: rest
    else (k, v) :: cfgSetattr rest key value

/-- `MediaMTX_Path_Config.to_dict`: `self.__dict__.copy()`. -/
def MediaMTX_Path_Config.to_dict (c : List (String × PyVal)) : List (String × PyVal) := c

/-- `MediaMTX_Path_Config.update_value` (lines 278-283): set the attribute
if `hasattr` resolves it, otherwise only print a warning. -/
def MediaMTX_Path_Config.update_value (c : List (String × PyVal)) (key : String)
    (value : PyVal) : List (String × PyVal) :=
  if cfgHasattr c key then cfgSetattr c key value else c

/-- `MediaMTX_Path_Config.load_from_dict` (lines 285-294): for each key of
the data, set the attribute when `hasattr` resolves it and silently skip
it (with a printed warning) when it does not.  Note that a data key naming
a *class* attribute (such as `to_json`) passes the `hasattr` guard and is
added to the instance dictionary by `setattr`. -/
def MediaMTX_Path_Config.load_from_dict (c : List (String × PyVal))
    (data : List (String × PyVal)) : List (String × PyVal) :=
  data.foldl
    (fun acc kv => if cfgHasattr acc kv.1 then cfgSetattr acc kv.1 kv.2 else acc) c

set_option maxHeartbeats 1000000 in
/-- `MediaMTX_Path_Config.__init__` (lines 162-268) with every argument
other than `name` and `source` left at its declared default; the entries
appear in the constructor's assignment order, which is the insertion order
of `self.__dict__`. -/
def MediaMTX_Path_Config.mk0 (name source : String) : List (String × PyVal) :=
  [ ("name", .str name)
  , ("source", .str source)
  , ("sourceFingerprint", .str "")
  , ("sourceOnDemand", .bool false)
  , ("sourceOnDemandStartTimeout", .str "")
  , ("sourceOnDemandCloseAfter", .str "")
  , ("maxReaders", .int 0)
  , ("srtReadPassphrase", .str "")
  , ("fallback", .str "")
  , ("useAbsoluteTimestamp", .bool false)
  , ("record", .bool false)
  , ("recordPath", .str "")
  , ("recordFormat", .str "")
  , ("recordPartDuration", .str "")
  , ("recordMaxPartSize", .str "")
  , ("recordSegmentDuration", .str "")
  , ("recordDeleteAfter", .str "")
  , ("overridePublisher", .bool false)
  , ("srtPublishPassphrase", .str "")
  , ("rtspTransport", .str "")
  , ("rtspAnyPort", .bool false)
  , ("rtspRangeType", .str "")
  , ("rtspRangeStart", .str "")
  , ("rtspUDPReadBufferSize", .int 0)
  , ("mpegtsUDPReadBufferSize", .int 0)
  , ("rtpSDP", .str "")
  , ("rtpUDPReadBufferSize", .int 0)
  , ("sourceRedirect", .str "")
  , ("rpiCameraCamID", .int 0)
  , ("rpiCameraSecondary", .bool false)
  , ("rpiCameraWidth", .int 0)
  , ("rpiCameraHeight", .int 0)
  , ("rpiCameraHFlip", .bool false)
  , ("rpiCameraVFlip", .bool false)
  , ("rpiCameraBrightness", .int 0)
  , ("rpiCameraContrast", .int 0)
  , ("rpiCameraSaturation", .int 0)
  , ("rpiCameraSharpness", .int 0)
  , ("rpiCameraExposure", .str "")
  , ("rpiCameraAWB", .str "")
  , ("rpiCameraAWBGains", .intListOpt none)
  , ("rpiCameraDenoise", .str "")
  , ("rpiCameraShutter", .int 0)
  , ("rpiCameraMetering", .str "")
  , ("rpiCameraGain", .int 0)
  , ("rpiCameraEV", .int 0)
  , ("rpiCameraROI", .str "")
  , ("rpiCameraHDR", .bool false)
  , ("rpiCameraTuningFile", .str "")
  , ("rpiCameraMode", .str "")
  , ("rpiCameraFPS", .int 0)
  , ("rpiCameraAfMode", .str "")
  , ("rpiCameraAfRange", .str "")
  , ("rpiCameraAfSpeed", .str "")
  , ("rpiCameraLensPosition", .int 0)
  , ("rpiCameraAfWindow", .str "")
  , ("rpiCameraFlickerPeriod", .int 0)
  , ("rpiCameraTextOverlayEnable", .bool false)
  , ("rpiCameraTextOverlay", .str "")
  , ("rpiCameraCodec", .str "")
  , ("rpiCameraIDRPeriod", .int 0)
  , ("rpiCameraBitrate", .int 0)
  , ("rpiCameraHardwareH264Profile", .str "")
  , ("rpiCameraHardwareH264Level", .str "")
  , ("rpiCameraSoftwareH264Profile", .str "")
  , ("rpiCameraSoftwareH264Level", .str "")
  , ("rpiCameraMJPEGQuality", .int 0)
  , ("runOnInit", .str "")
  , ("runOnInitRestart", .bool false)
  , ("runOnDemand", .str "")
  , ("runOnDemandRestart", .bool false)
  , ("runOnDemandStartTimeout", .str "")
  , ("runOnDemandCloseAfter", .str "")
  , ("runOnUnDemand", .str "")
  , ("runOnReady", .str "")
  , ("runOnReadyRestart", .bool false)
  , ("runOnNotReady", .str "")
  , ("runOnRead", .str "")
  , ("runOnReadRestart", .bool false)
  , ("runOnUnread", .str "")
  , ("runOnRecordSegmentCreate", .str "")
  , ("runOnRecordSegmentComplete", .str "")
  ]

/-! ## `FFMPEG_Command_Builder` (Video_Object.py lines 389-485) -/

/-- `FFMPEG_Command_Builder.IngestType` (an `IntEnum`). -/
inductive IngestType where
  | CAMERA
  | NETWORKED_MP4
  | LOCAL_MP4
  | YOLO
deriving DecidableEq

/-- The integer value of each enum member. -/
def IngestType.val : IngestType → Int
  | .CAMERA => 0
  | .NETWORKED_MP4 => 1
  | .LOCAL_MP4 => 2
  | .YOLO => 3

structure FFMPEG_Command_Builder where
  UID : String
  Linked_Device : String
  OTP : String
  timeout : Int
  input_type : IngestType
  last_type : Option IngestType
deriving DecidableEq

/-- `FFMPEG_Command_Builder.metadata_template` (lines 411-417). -/
def FFMPEG_Command_Builder.metadata_template (b : FFMPEG_Command_Builder) : String :=
  "-metadata uid=\"" ++ b.UID ++ "\" "
    ++ "-metadata linked_device=\"" ++ b.Linked_Device ++ "\" "
    ++ "-metadata otp=\"" ++ b.OTP ++ "\""

/-- `FFMPEG_Command_Builder.update_metadata` (lines 427-439).  Python
truthiness: `if timeout and timeout > 0`, `if uid`, `if otp` — `None`,
zero and the empty string all skip the assignment. -/
def FFMPEG_Command_Builder.update_metadata (b : FFMPEG_Command_Builder)
    (timeout : Option Int) (uid otp : Option String) : FFMPEG_Command_Builder :=
  let b1 := match timeout with
    | some t => if t != 0 && t > 0 then { b with timeout := t } else b
    | none => b
  let b2 := match uid with
    | some u => if !u.data.isEmpty then { b1 with UID := u } else b1
    | none => b1
  match otp with
  | some o => if !o.data.isEmpty then { b2 with OTP := o } else b2
  | none => b2

/-- `FFMPEG_Command_Builder._ingest` (lines 449-473); returns the updated
builder (with `_last_type` recorded) and the synthesized command, or the
raised exception.  For the `NETWORKED_MP4` branch the Python source reads
`f"{source.Root}{source.URL}"`; `source.Root` is a *bound method*, not a
call, so Python interpolates its textual repr, whose exact form depends on
the object's memory address — it enters here as the parameter `rootRepr`.
The trailing `else: raise ValueError` branch is unreachable for genuine
enum members and has no counterpart in the total match. -/
def FFMPEG_Command_Builder.ingest (b : FFMPEG_Command_Builder) (t : IngestType)
    (source : SafeLink) (port : Int) (rootRepr : String) :
    Except PyErr (FFMPEG_Command_Builder × String) :=
  let b1 := { b with last_type := some t }
  let render := fun (input_path : String) =>
    "ffmpeg -timeout " ++ toString b1.timeout ++ " "
      ++ "-re -stream_loop -1 -i \"" ++ input_path ++ "\" "
      ++ "-c copy " ++ b1.metadata_template ++ " "
      ++ "-f rtsp \"rtsp://127.0.0.1:" ++ toString port ++ "/" ++ b1.UID ++ "/stream\""
  match t with
  | .CAMERA => .ok (b1, render source.Hyperlink)
  | .NETWORKED_MP4 => .ok (b1, render (rootRepr ++ source.URL))
  | .LOCAL_MP4 => .ok (b1, render source.URL)
  | .YOLO => .error (.notImplementedError "YOLO ingestion not yet implemented")

/-- The attributes of the class `FFMPEG_Command_Builder` (its nested enum,
properties, classmethod and methods, lines 389-485).  Note that neither
`ingest_types` nor `ChangeMetaData` is among them. -/
def ffmpegBuilderClassAttrs : List String :=
  ["IngestType", "metadata_template", "allowed_types", "last_type_used",
   "update_metadata", "run_on_ready", "_ingest", "to_dict"]

/-- The attributes visible on an *instance* of `FFMPEG_Command_Builder`:
the fields assigned in `__init__` plus the class attributes. -/
def ffmpegBuilderObjectAttrs : List String :=
  ["UID", "Linked_Device", "OTP", "timeout", "_input_type", "_last_type"]
    ++ ffmpegBuilderClassAttrs

/-! ## `Camera_Object` (Video_Object.py lines 492-732)

The object state is the set of fields assigned in `__init__`.  Remote HTTP
results enter as explicit parameters: `MediaMTX_API_Interface._call`
(lines 91-111) returns the remote status code, or the sentinel `0` when
`requests` raises a transport error — it never lets an exception escape,
so the `ConnectionError` handlers in the camera methods are dead code. -/

structure Camera_Object where
  statuscode : Int
  status_message : String
  otp : String
  streamingport : Option Int
  input_type : Int
  camera_UID : String
  config : List (String × PyVal)
  camera_address : SafeLink
  mediamtx_address : SafeLink
  takat_address : SafeLink
  ffmpeg_command : FFMPEG_Command_Builder
deriving DecidableEq

/-- `Camera_Object.Ready` (lines 556-558): `statuscode in (200, 201)`. -/
def Camera_Object.Ready (cam : Camera_Object) : Bool :=
  cam.statuscode == 200 || cam.statuscode == 201

/-- `Camera_Object.__init__` (lines 499-532).  After the plain field
assignments of lines 501-504, line 507 evaluates
`FFMPEG_Command_Builder.ingest_types()`.  The class defines no attribute
named `ingest_types` (its classmethod is `allowed_types`), so Python
raises `AttributeError` there, outside any `try` block; no later line of
the constructor is ever reached.  (Had the lookup succeeded, line 523
would still raise `TypeError`: the builder's parameters are the lowercase
`uid`/`linked_device`/`otp`, not `UID`/`Linked_Device`/`OTP`.) -/
def Camera_Object.init (Camera_UID OTP : String) (config : List (String × PyVal))
    (Camera_Address Mediamtx_Server Takat_Server : SafeLink)
    (StreamingPort : Option Int) (Input_Type : Int) : Except PyErr Camera_Object :=
  let _ := (Camera_UID, OTP, config, Camera_Address, Mediamtx_Server, Takat_Server,
            StreamingPort, Input_Type)
  if ffmpegBuilderClassAttrs.contains "ingest_types" then
    .error (.typeError
      "FFMPEG_Command_Builder.__init__() got an unexpected keyword argument 'UID'")
  else
    .error (.attributeError
      "type object 'FFMPEG_Command_Builder' has no attribute 'ingest_types'")

/-- `Camera_Object.Remove_Path` (lines 662-676): `delete_path` yields the
remote status (or the transport sentinel `0`) without raising, the status
slots are overwritten with it, and it is returned. -/
def Camera_Object.Remove_Path (cam : Camera_Object) (deleteStatus : Int) :
    Camera_Object × Int :=
  ({ cam with
      status_message := "MediaMTX server path deleted"
      statuscode := deleteStatus }, deleteStatus)

/-- `Camera_Object.Change_OTP` (lines 679-691).  Inside the `try`, the
local OTP is assigned first; the next statement calls
`self._ffmpeg_command.ChangeMetaData(otp=new_otp)`, but the builder has no
attribute of that name (the method is `update_metadata`), so an
`AttributeError` is raised and caught by `except Exception`, which records
status 500.  The builder — and with it every subsequently synthesized
command's metadata — is left untouched. -/
def Camera_Object.Change_OTP (cam : Camera_Object) (new_otp : String) :
    Camera_Object × Int :=
  let cam1 := { cam with otp := new_otp }
  if ffmpegBuilderObjectAttrs.contains "ChangeMetaData" then
    ({ cam1 with
        ffmpeg_command := cam1.ffmpeg_command.update_metadata none none (some new_otp)
        status_message := "OTP changed."
        statuscode := 200 }, 200)
  else
    ({ cam1 with
        statuscode := 500
        status_message :=
          "Error changing OTP: 'FFMPEG_Command_Builder' object has no attribute 'ChangeMetaData'" },
      500)

/-! ## `Video_Object.__init__` credential and address wiring
(Video_Object.py lines 746-825)

The constructor's data flow: build the session credentials, register the
source-camera and virtual-camera UIDs (random ones when not supplied),
derive the virtual camera's relay address, and compute the string written
into the virtual resource's `source` configuration field (line 825).  The
two `Camera_Object` constructions and the `Update_Path_Single_Value`
calls in between are external-effect boundaries (and in fact the first of
them always raises, see `Camera_Object.init`); the values wired here are
exactly the ones the source text assigns. -/

/-- Python `f"{x}"` for an `Optional[int]`: `None` renders as `"None"`. -/
def pyOptIntStr : Option Int → String
  | some n => toString n
  | none => "None"

structure VideoWiring where
  credentials : OTP_UID_Manager
  linked_device : String
  scuid : String
  vcuid : String
  virtual_camera_address : SafeLink
  source_field_value : String
deriving DecidableEq

/-- Lines 763-787 and 791, 805-808, 825 of `Video_Object.__init__`:
`genSource`/`genVirtual`/`genOtp` are the random values produced when the
corresponding argument was not supplied.  Line 808 passes
`self._mediamtx_server_address.ALLOWED_PROTOCOLS`, which resolves to the
*class* constant `["http", "https"]` — not the instance's allowed list —
so the requested `"rtsp"` protocol of line 807 falls back to `"http"`. -/
def Video_Object.wiring (ipOk : String → Bool) (uid : String)
    (mediamtx_server : SafeLink) (streaming_port : Int)
    (virtual_camera_uid source_camera_uid linked_device : Option String)
    (genSource genVirtual genOtp : String) : VideoWiring :=
  let linked0 := linked_device.getD "None"
  let creds0 := OTP_UID_Manager.init (some uid) "" (none) genOtp
  let creds1 := (creds0.add_uid (source_camera_uid.getD genSource) "source_camera").1
  let withVirtual : OTP_UID_Manager × String :=
    match virtual_camera_uid with
    | none =>
      let c := (creds1.add_uid genVirtual "virtual_camera").1
      let linked1 := if linked0 == "None"
        then (c.find_uid_by_name "virtual_camera").headD ""
        else linked0
      (c, linked1)
    | some v => ((creds1.add_uid v "virtual_camera").1, linked0)
  let creds2 := withVirtual.1
  let scuid := (creds2.find_uid_by_name "source_camera").headD ""
  let vcuid := (creds2.find_uid_by_name "virtual_camera").headD ""
  let vaddr := SafeLink.init ipOk "rtsp" mediamtx_server.Host (some streaming_port)
    (vcuid ++ "/stream") (some SafeLink.ALLOWED_PROTOCOLS)
  { credentials := creds2
    linked_device := withVirtual.2
    scuid := scuid
    vcuid := vcuid
    virtual_camera_address := vaddr
    source_field_value :=
      vaddr.Protocol ++ "://127.0.0.1:" ++ pyOptIntStr vaddr.Port ++ "/" ++ vcuid ++ "/stream" }

/-! ## Substring helper (for stating "contains"/"never contains") -/

/-- `sub` occurs as a contiguous block inside `l`. -/
def charsContain (sub : List Char) : List Char → Bool
  | [] => sub.isEmpty
  | c :: rest => sub.isPrefixOf (c :: rest) || charsContain sub rest

/-- `sub` is a substring of `s`. -/
def strContains (s sub : String) : Bool :=
  charsContain sub.data s.data

/-! ## Concrete inputs used by witnesses and counterexamples -/

/-- An `ipaddress.ip_address` oracle that accepts only the loop-back
address; witnesses below never depend on the oracle's other answers. -/
def ipOkExample : String → Bool := fun s => s == "127.0.0.1"

/-- A fully explicit camera state (the fields `__init__` would populate);
used to evaluate the camera methods at concrete inputs. -/
def exampleCamera : Camera_Object :=
  { statuscode := 200
    status_message := "Camera camA initialized successfully."
    otp := "oldSecret"
    streamingport := some 8554
    input_type := 0
    camera_UID := "camA"
    config := MediaMTX_Path_Config.mk0 "camA" "rtsp://upstream/feed"
    camera_address := SafeLink.init ipOkExample "http" "cam.local" (some 80) "mjpeg" none
    mediamtx_address := SafeLink.init ipOkExample "http" "127.0.0.1" (some 9997) "" none
    takat_address := SafeLink.init ipOkExample "https" "takat.local" (some 443) "" none
    ffmpeg_command :=
      { UID := "camA", Linked_Device := "camA", OTP := "oldSecret",
        timeout := 5000000, input_type := .CAMERA, last_type := none } }

/-- The builder of the C8 scenario: uid `abc123`. -/
def exampleBuilder : FFMPEG_Command_Builder :=
  { UID := "abc123"
    Linked_Device := "dev1"
    OTP := "otp1"
    timeout := 5000000
    input_type := .CAMERA
    last_type := none }

/-- The C8 source address `http://cam.local:80/mjpeg`. -/
def exampleSource : SafeLink :=
  SafeLink.init ipOkExample "http" "cam.local" (some 80) "mjpeg" none

/-- The command the C8 scenario is expected to synthesize. -/
def c8ExpectedCommand : String :=
  "ffmpeg -timeout 5000000 -re -stream_loop -1 -i \"http://cam.local:80/mjpeg\" -c copy -metadata uid=\"abc123\" -metadata linked_device=\"dev1\" -metadata otp=\"otp1\" -f rtsp \"rtsp://127.0.0.1:8554/abc123/stream\""

/-- A concrete credential manager: explicit UID `alpha`, explicit OTP. -/
def c3Init : OTP_UID_Manager :=
  OTP_UID_Manager.init (some "alpha") "" (some "otp0") ""

/-- The state after `add_uid("beta", "primary_uid")` on `c3Init`. -/
def c3Bad : OTP_UID_Manager :=
  (c3Init.add_uid "beta" "primary_uid").1

/-! # Theorems -/

/-! ## C2 — `valid` characterisation -/

/-- **C2.** For every credential-manager state and every pair of strings,
`valid(otp, uid)` is true iff the supplied OTP equals the stored OTP and
the UID appears in the roster under at least one role; a non-matching OTP
alone, or a UID absent from the roster alone, forces the result false. -/
theorem C2_valid_iff (m : OTP_UID_Manager) (otp uid : String) :
    (m.valid otp uid = true ↔ otp = m.otp ∧ ∃ name, (uid, name) ∈ m.uids)
      ∧ (otp ≠ m.otp → m.valid otp uid = false)
      ∧ ((∀ name, (uid, name) ∉ m.uids) → m.valid otp uid = false) := by
  have key : m.valid otp uid = true ↔ otp = m.otp ∧ ∃ name, (uid, name) ∈ m.uids := by
    simp only [OTP_UID_Manager.valid, Bool.and_eq_true, beq_iff_eq, List.any_eq_true]
    constructor
    · rintro ⟨h1, ⟨a, b⟩, hmem, hq⟩
      simp only [beq_iff_eq] at hq
      subst hq
      exact ⟨h1.symm, b, hmem⟩
    · rintro ⟨h1, name, hmem⟩
      exact ⟨h1.symm, (uid, name), hmem, by simp⟩
  refine ⟨key, ?_, ?_⟩
  · intro h
    cases hv : m.valid otp uid with
    | false => rfl
    | true => exact absurd (key.mp hv).1 h
  · intro h
    cases hv : m.valid otp uid with
    | false => rfl
    | true =>
      obtain ⟨-, name, hmem⟩ := key.mp hv
      exact absurd hmem (h name)

/-- Witness for C2 at a concrete manager: the stored OTP together with the
primary UID validates; a wrong OTP and an unknown UID are rejected. -/
theorem C2_valid_iff_witness :
    (c3Init.valid "otp0" "alpha" = true)
      ∧ (c3Init.valid "WRONG" "alpha" = false)
      ∧ (c3Init.valid "otp0" "ghost" = false) := by
  refine ⟨?_, ?_, ?_⟩
  · exact (C2_valid_iff c3Init "otp0" "alpha").1.mpr ⟨rfl, "primary_uid", by decide⟩
  · exact (C2_valid_iff c3Init "WRONG" "alpha").2.1 (by decide)
  · refine (C2_valid_iff c3Init "otp0" "ghost").2.2 ?_
    intro name hmem
    simp [c3Init, OTP_UID_Manager.init] at hmem

/-! ## C10 — `update_metadata` frame conditions -/

/-- A string whose character list is nonempty is not the empty string. -/
theorem strNeEmpty {s : String} (h : ¬ s.data = []) : s ≠ "" :=
  fun he => absurd (congrArg String.data he) h

/-- **C10.** `update_metadata` with an omitted/None/empty uid or otp, or an
omitted/None/non-positive timeout, leaves the corresponding stored field
unchanged; no field other than those given a non-empty positive value is
ever modified, so the OTP or UID can never be blanked this way. -/
theorem C10_update_metadata_frame (b : FFMPEG_Command_Builder)
    (timeout : Option Int) (uid otp : Option String) :
    ((timeout = none ∨ ∃ t, timeout = some t ∧ t ≤ 0) →
        (b.update_metadata timeout uid otp).timeout = b.timeout)
      ∧ ((uid = none ∨ uid = some "") →
        (b.update_metadata timeout uid otp).UID = b.UID)
      ∧ ((otp = none ∨ otp = some "") →
        (b.update_metadata timeout uid otp).OTP = b.OTP)
      ∧ (b.update_metadata timeout uid otp).Linked_Device = b.Linked_Device
      ∧ (b.update_metadata timeout uid otp).input_type = b.input_type
      ∧ (b.update_metadata timeout uid otp).last_type = b.last_type
      ∧ ((b.update_metadata timeout uid otp).timeout ≠ b.timeout →
        ∃ t, timeout = some t ∧ 0 < t)
      ∧ ((b.update_metadata timeout uid otp).UID ≠ b.UID →
        ∃ u, uid = some u ∧ u ≠ "")
      ∧ ((b.update_metadata timeout uid otp).OTP ≠ b.OTP →
        ∃ o, otp = some o ∧ o ≠ "") := by
  rcases timeout with _ | t <;> rcases uid with _ | u <;> rcases otp with _ | o <;>
    simp only [FFMPEG_Command_Builder.update_metadata] <;>
    (try split_ifs) <;>
    (try simp_all) <;>
    (repeat' constructor) <;>
    intro hx <;>
    first
      | exact absurd hx (strNeEmpty (by assumption))
      | exact strNeEmpty (by assumption)

/-! ## C7 — `Remove_Path` and readiness -/

/-- **C7 counterexample.** A successful remote delete (status 200) leaves
the resource *ready*: after `Remove_Path` the status code is simply the
delete result, so `Ready` is true — refuting the claim that the resource
is not-ready after `remove()` regardless of the remote result. -/
theorem C7_remove_success_leaves_ready :
    (exampleCamera.Remove_Path 200).1.Ready = true := rfl

/-- **C7 (amended).** After `remove()`, the returned value and the stored
status code both equal the remote delete result (including the transport
sentinel 0), and the resource is not-ready exactly when that result lies
outside {200, 201}; a successful delete leaves it ready. -/
theorem C7_remove_status_propagates (cam : Camera_Object) (deleteStatus : Int) :
    (cam.Remove_Path deleteStatus).2 = deleteStatus
      ∧ (cam.Remove_Path deleteStatus).1.statuscode = deleteStatus
      ∧ (cam.Remove_Path deleteStatus).1.status_message = "MediaMTX server path deleted"
      ∧ ((cam.Remove_Path deleteStatus).1.Ready = true
          ↔ (deleteStatus = 200 ∨ deleteStatus = 201))
      ∧ ((cam.Remove_Path deleteStatus).1.Ready = false
          ↔ (deleteStatus ≠ 200 ∧ deleteStatus ≠ 201)) := by
  refine ⟨rfl, rfl, rfl, ?_, ?_⟩ <;>
    simp [Camera_Object.Remove_Path, Camera_Object.Ready]

/-- Witness for the amended C7: a failed delete (404) and a transport
failure (0) leave the resource not-ready. -/
theorem C7_remove_status_propagates_witness :
    (exampleCamera.Remove_Path 404).1.Ready = false
      ∧ (exampleCamera.Remove_Path 0).1.Ready = false :=
  ⟨(C7_remove_status_propagates exampleCamera 404).2.2.2.2.mpr (by decide),
   (C7_remove_status_propagates exampleCamera 0).2.2.2.2.mpr (by decide)⟩

/-! ## C4 — camera construction always raises -/

/-- **C4.** For every input — every UID, OTP, config, address triple,
streaming port and input type, including types outside the enum —
`Camera_Object.__init__` raises: its enum-membership check calls
`FFMPEG_Command_Builder.ingest_types()`, an attribute the class does not
define (the classmethod is `allowed_types`), so an `AttributeError`
escapes before any status fields can be consulted.  This refutes the
claim that construction never raises and always yields a queryable
ready/not-ready resource. -/
theorem C4_construction_always_raises (Camera_UID OTP : String)
    (config : List (String × PyVal))
    (Camera_Address Mediamtx_Server Takat_Server : SafeLink)
    (StreamingPort : Option Int) (Input_Type : Int) :
    Camera_Object.init Camera_UID OTP config Camera_Address Mediamtx_Server
        Takat_Server StreamingPort Input_Type
      = .error (.attributeError
          "type object 'FFMPEG_Command_Builder' has no attribute 'ingest_types'") := rfl

/-! ## C6 — `Change_OTP` -/

/-- **C6.** For every camera state and every new OTP, `Change_OTP` *does*
set the local OTP, but the call to the nonexistent builder method
`ChangeMetaData` (the real method is `update_metadata`) raises an
`AttributeError` that the handler converts to status 500: the
ingestion-command metadata is *not* regenerated — the builder, and hence
the `otp` metadata field of every subsequently synthesized command, keeps
the old OTP — and the returned status is 500, not success.  This refutes
the claim that metadata is regenerated and a success status returned. -/
theorem C6_change_otp_returns_500_and_stale_metadata
    (cam : Camera_Object) (new_otp : String) :
    cam.Change_OTP new_otp
      = ({ cam with
            otp := new_otp
            statuscode := 500
            status_message :=
              "Error changing OTP: 'FFMPEG_Command_Builder' object has no attribute 'ChangeMetaData'" },
          500)
      ∧ (cam.Change_OTP new_otp).1.ffmpeg_command = cam.ffmpeg_command
      ∧ (cam.Change_OTP new_otp).1.ffmpeg_command.metadata_template
          = cam.ffmpeg_command.metadata_template
      ∧ (cam.Change_OTP new_otp).1.otp = new_otp :=
  ⟨rfl, rfl, rfl, rfl⟩

/-! ## C1 — the virtual camera's `source` field -/

/-- **C1.** Evaluating the `Video_Object.__init__` wiring at a concrete
construction whose source-camera UID (`srcCAM42`) and virtual-camera UID
(`virtCAM99`) differ: the value written into the virtual resource's
`source` configuration field (line 825) is built from the *virtual*
camera's UID — it contains `virtCAM99` and not `srcCAM42` — refuting the
claim that it always contains the UID registered under the
`"source_camera"` role.  (The relay URL also degrades to `http`: line 808
passes the class constant `ALLOWED_PROTOCOLS = ["http", "https"]`, so the
requested `rtsp` protocol falls back to the default.) -/
theorem C1_virtual_source_uses_virtual_uid :
    (Video_Object.wiring ipOkExample "prim1"
        (SafeLink.init ipOkExample "http" "10.0.0.5" (some 9997) "" none) 8554
        (some "virtCAM99") (some "srcCAM42") none "" "" "otpX").scuid = "srcCAM42"
      ∧ (Video_Object.wiring ipOkExample "prim1"
          (SafeLink.init ipOkExample "http" "10.0.0.5" (some 9997) "" none) 8554
          (some "virtCAM99") (some "srcCAM42") none "" "" "otpX").vcuid = "virtCAM99"
      ∧ (Video_Object.wiring ipOkExample "prim1"
          (SafeLink.init ipOkExample "http" "10.0.0.5" (some 9997) "" none) 8554
          (some "virtCAM99") (some "srcCAM42") none "" "" "otpX").source_field_value
        = "http://127.0.0.1:8554/virtCAM99/stream"
      ∧ strContains
          (Video_Object.wiring ipOkExample "prim1"
            (SafeLink.init ipOkExample "http" "10.0.0.5" (some 9997) "" none) 8554
            (some "virtCAM99") (some "srcCAM42") none "" "" "otpX").source_field_value
          "virtCAM99" = true
      ∧ strContains
          (Video_Object.wiring ipOkExample "prim1"
            (SafeLink.init ipOkExample "http" "10.0.0.5" (some 9997) "" none) 8554
            (some "virtCAM99") (some "srcCAM42") none "" "" "otpX").source_field_value
          "srcCAM42" = false := by
  refine ⟨rfl, rfl, rfl, by decide, by decide⟩

/-! ## C3 — the primary-entry invariant -/

/-- When the `remove_uid` scan succeeds, the removed pair's role is not
`"primary_uid"`, so the number of primary entries is unchanged. -/
theorem removeUidAux_countP (uid : String) (name : Option String) :
    ∀ l r : List (String × String), removeUidAux uid name l = some r →
      r.countP (fun p => p.2 == "primary_uid")
        = l.countP (fun p => p.2 == "primary_uid") := by
  intro l
  induction l with
  | nil => intro r h; simp [removeUidAux] at h
  | cons hd tl ih =>
    intro r h
    obtain ⟨u, n⟩ := hd
    simp only [removeUidAux] at h
    split at h
    · split at h
      · exact absurd h (by simp)
      · rename_i hn
        split at h
        · cases h
          simp only [List.countP_cons]
          simp [hn]
        · split at h
          · exact absurd h (by simp)
          · rename_i r' hr'
            cases h
            simp only [List.countP_cons, ih r' hr']
    · split at h
      · exact absurd h (by simp)
      · rename_i r' hr'
        cases h
        simp only [List.countP_cons, ih r' hr']

/-- Every restricted operation preserves "exactly one primary entry". -/
theorem MStepSafe_preserves (a b : OTP_UID_Manager) (h : MStepSafe a b)
    (ha : countPrimary a = 1) : countPrimary b = 1 := by
  simp only [countPrimary] at ha ⊢
  cases h with
  | add uid name hname =>
    simp only [OTP_UID_Manager.add_uid]
    split
    · exact ha
    · simp [List.countP_append, List.countP_cons, hname, ha]
  | addRandom genUid name hname =>
    simp only [OTP_UID_Manager.add_random_uid]
    simp [List.countP_append, List.countP_cons, hname, ha]
  | remove uid name =>
    simp only [OTP_UID_Manager.remove_uid]
    split
    · exact ha
    · rename_i l hl
      simpa [removeUidAux_countP uid name a.uids l hl] using ha
  | resetDefault genUid otp genOtp =>
    simp [OTP_UID_Manager.reset]
  | resetPrimary u genUid otp genOtp =>
    simp [OTP_UID_Manager.reset]

/-- **C3 counterexample.** From a freshly constructed manager,
`add_uid("beta", "primary_uid")` is a legal operation of the claimed
closure, and it yields a reachable state with *two* entries whose role is
primary — refuting the claim that every reachable state has exactly one. -/
theorem C3_two_primaries_reachable :
    MReachable c3Init c3Bad ∧ countPrimary c3Bad = 2 :=
  ⟨Relation.ReflTransGen.single (MStep.add c3Init "beta" "primary_uid"), by decide⟩

/-- **C3 (amended).** In every state reachable from construction by
`add_uid`, `add_random_uid`, `remove_uid` and `reset`, *provided* no add
operation is given the role `"primary_uid"` and `reset` is only given its
default pair or an explicit pair with role `"primary_uid"`, the roster
contains exactly one primary entry — in particular no operation ever
removes it.  (Without the proviso the claim fails, see the
counterexample: `add_uid`/`add_random_uid` can insert a second primary
entry, and `reset` with a non-primary pair can leave none.) -/
theorem C3_primary_invariant_restricted (uid : Option String) (genUid : String)
    (otp : Option String) (genOtp : String) (m : OTP_UID_Manager)
    (h : MReachableSafe (OTP_UID_Manager.init uid genUid otp genOtp) m) :
    countPrimary m = 1 := by
  unfold MReachableSafe at h
  induction h with
  | refl => simp [OTP_UID_Manager.init, countPrimary]
  | tail hsteps hstep ih => exact MStepSafe_preserves _ _ hstep ih

/-- Witness for the amended C3 at the construction state itself. -/
theorem C3_primary_invariant_witness :
    countPrimary (OTP_UID_Manager.init (some "seed") "" (some "o") "") = 1 :=
  C3_primary_invariant_restricted (some "seed") "" (some "o") "" _
    Relation.ReflTransGen.refl

/-! ## C5 — configuration round trip -/

/-- A present pair makes `hasattr` true (instance lookup). -/
theorem mem_cfgHasattr {c : List (String × PyVal)} {k : String} {v : PyVal}
    (h : (k, v) ∈ c) : cfgHasattr c k = true := by
  simp only [cfgHasattr, Bool.or_eq_true, List.any_eq_true]
  exact Or.inl ⟨(k, v), h, by simp⟩

/-- Setting a key to the value it already holds is the identity, when the
keys are distinct (as they are in an attribute dictionary). -/
theorem cfgSetattr_mem_nodup (c : List (String × PyVal)) (k : String) (v : PyVal)
    (hmem : (k, v) ∈ c) (hnd : (c.map Prod.fst).Nodup) : cfgSetattr c k v = c := by
  induction c with
  | nil => cases hmem
  | cons hd tl ih =>
    obtain ⟨k', v'⟩ := hd
    simp only [List.map_cons, List.nodup_cons] at hnd
    simp only [cfgSetattr]
    split
    · rename_i hk
      have hk' : k' = k := by simpa using hk
      subst hk'
      rcases List.mem_cons.mp hmem with heq | hmemtl
      · rw [(Prod.mk.injEq ..).mp heq.symm |>.2]
      · exact absurd (List.mem_map_of_mem Prod.fst hmemtl) hnd.1
    · rename_i hk
      have hmemtl : (k, v) ∈ tl := by
        rcases List.mem_cons.mp hmem with heq | h2
        · rw [(Prod.mk.injEq ..).mp heq |>.1] at hk
          simp at hk
        · exact h2
      simp [ih hmemtl hnd.2]

/-- Setting a key that is not in the dictionary appends it at the end. -/
theorem cfgSetattr_append (c : List (String × PyVal)) (k : String) (v : PyVal)
    (habs : k ∉ c.map Prod.fst) : cfgSetattr c k v = c ++ [(k, v)] := by
  induction c with
  | nil => rfl
  | cons hd tl ih =>
    obtain ⟨k', v'⟩ := hd
    simp only [List.map_cons, List.mem_cons, not_or] at habs
    have h1 : ¬ (k' == k) = true := by
      simp only [beq_iff_eq]
      exact fun he => habs.1 he.symm
    simp only [cfgSetattr, if_neg h1, ih habs.2, List.cons_append]

/-- Loading any sub-dictionary of a configuration back into it is the
identity. -/
theorem load_from_dict_sub (data : List (String × PyVal)) :
    ∀ c, (∀ p ∈ data, p ∈ c) → (c.map Prod.fst).Nodup →
      MediaMTX_Path_Config.load_from_dict c data = c := by
  induction data with
  | nil => intro c _ _; rfl
  | cons p ps ih =>
    intro c hsub hnd
    obtain ⟨k, v⟩ := p
    have hmem : (k, v) ∈ c := hsub _ (by simp)
    have hstep : (if cfgHasattr c k then cfgSetattr c k v else c) = c := by
      rw [if_pos (mem_cfgHasattr hmem), cfgSetattr_mem_nodup c k v hmem hnd]
    simp only [MediaMTX_Path_Config.load_from_dict, List.foldl_cons]
    rw [hstep]
    have := ih c (fun q hq => hsub q (by simp [hq])) hnd
    simpa only [MediaMTX_Path_Config.load_from_dict] using this

/-- Loading data none of whose keys `hasattr` can resolve is the
identity: every such key is skipped. -/
theorem load_from_dict_skip (data : List (String × PyVal)) :
    ∀ c, (∀ kv ∈ data, cfgHasattr c kv.1 = false) →
      MediaMTX_Path_Config.load_from_dict c data = c := by
  induction data with
  | nil => intro c _; rfl
  | cons p ps ih =>
    intro c hall
    obtain ⟨k, v⟩ := p
    have h0 : cfgHasattr c k = false := hall (k, v) (by simp)
    have hstep : (if cfgHasattr c k then cfgSetattr c k v else c) = c := by
      rw [h0]
      simp
    simp only [MediaMTX_Path_Config.load_from_dict, List.foldl_cons]
    rw [hstep]
    have := ih c (fun q hq => hall q (by simp [hq]))
    simpa only [MediaMTX_Path_Config.load_from_dict] using this

/-- **C5 (amended).** `load_from_dict(to_dict(c))` reproduces the
configuration exactly (attribute dictionaries have pairwise-distinct
keys); but unknown keys in loaded data are *not* preserved verbatim
through load → mutate → save: a data key that `hasattr` cannot resolve at
all is silently skipped and so dropped, while a data key that names a
class attribute (such as `to_json`) is added to the instance dictionary
by `setattr`, shadowing the method — in neither case is the claimed
verbatim pass-through of unknown keys what happens. -/
theorem C5_roundtrip_and_unknown_keys_dropped :
    (∀ c : List (String × PyVal), (c.map Prod.fst).Nodup →
      MediaMTX_Path_Config.load_from_dict c (MediaMTX_Path_Config.to_dict c) = c)
    ∧ (∀ c data : List (String × PyVal),
        (∀ kv ∈ data, cfgHasattr c kv.1 = false) →
        MediaMTX_Path_Config.load_from_dict c data = c)
    ∧ (∀ (c : List (String × PyVal)) (k : String) (v : PyVal),
        k ∉ c.map Prod.fst → configClassAttrs.contains k = true →
        MediaMTX_Path_Config.load_from_dict c [(k, v)] = c ++ [(k, v)]) := by
  refine ⟨?_, ?_, ?_⟩
  · intro c hnd
    exact load_from_dict_sub c c (fun p hp => hp) hnd
  · intro c data hall
    exact load_from_dict_skip data c hall
  · intro c k v habs hcls
    have hh : cfgHasattr c k = true := by
      simp only [cfgHasattr, Bool.or_eq_true]
      exact Or.inr hcls
    simp only [MediaMTX_Path_Config.load_from_dict, List.foldl_cons, List.foldl_nil, hh,
      if_true]
    exact cfgSetattr_append c k v habs

/-- **C5 counterexample.** Loading data carrying the key `bogusKey`
(resolvable neither on the instance nor on the class) into a freshly
constructed configuration, mutating `record`, and saving: the saved
dictionary does not contain `bogusKey` — the unknown key was dropped,
refuting the claim that unknown keys survive the load → mutate → save
round trip verbatim. -/
theorem C5_unknown_key_dropped :
    ((MediaMTX_Path_Config.to_dict
        (MediaMTX_Path_Config.update_value
          (MediaMTX_Path_Config.load_from_dict
            (MediaMTX_Path_Config.mk0 "cam1" "rtsp-src")
            [("bogusKey", PyVal.str "keepme")])
          "record" (PyVal.bool true))).map Prod.fst).contains "bogusKey" = false := by
  decide

/-- Witness for the amended C5: the round trip at a fully constructed
configuration; an unresolvable key is skipped; a class-attribute key
(`to_json`) is appended to the instance dictionary, shadowing the
method. -/
theorem C5_roundtrip_witness :
    (MediaMTX_Path_Config.load_from_dict (MediaMTX_Path_Config.mk0 "cam1" "rtsp-src")
        (MediaMTX_Path_Config.to_dict (MediaMTX_Path_Config.mk0 "cam1" "rtsp-src"))
      = MediaMTX_Path_Config.mk0 "cam1" "rtsp-src")
      ∧ (MediaMTX_Path_Config.load_from_dict (MediaMTX_Path_Config.mk0 "cam1" "rtsp-src")
          [("bogusKey", PyVal.str "keepme")]
        = MediaMTX_Path_Config.mk0 "cam1" "rtsp-src")
      ∧ (MediaMTX_Path_Config.load_from_dict (MediaMTX_Path_Config.mk0 "cam1" "rtsp-src")
          [("to_json", PyVal.str "shadow")]
        = MediaMTX_Path_Config.mk0 "cam1" "rtsp-src" ++ [("to_json", PyVal.str "shadow")]) :=
  ⟨C5_roundtrip_and_unknown_keys_dropped.1 (MediaMTX_Path_Config.mk0 "cam1" "rtsp-src")
      (by decide),
   C5_roundtrip_and_unknown_keys_dropped.2.1 (MediaMTX_Path_Config.mk0 "cam1" "rtsp-src")
      [("bogusKey", PyVal.str "keepme")] (by decide),
   C5_roundtrip_and_unknown_keys_dropped.2.2 (MediaMTX_Path_Config.mk0 "cam1" "rtsp-src")
      "to_json" (PyVal.str "shadow") (by decide) (by decide)⟩

/-! ## C8 — the synthesized ingestion command -/

/-- **C8.** For the camera source type with address
`http://cam.local:80/mjpeg`, destination port 8554 and builder UID
`abc123`, the synthesized command equals the expected string, whose output
target is exactly `rtsp://127.0.0.1:8554/abc123/stream` and which carries
`-metadata uid="abc123"`; and every successfully synthesized command is
the ordered concatenation of the timeout flag, the indefinite-loop flag,
the resolved input path, the codec-copy flag, the three metadata pairs
(uid, linked-device, otp) and the output target scoped by the builder UID
and the destination port. -/
theorem C8_ingest_command :
    (exampleBuilder.ingest .CAMERA exampleSource 8554 ""
        = .ok ({ exampleBuilder with last_type := some IngestType.CAMERA },
               c8ExpectedCommand))
      ∧ strContains c8ExpectedCommand "rtsp://127.0.0.1:8554/abc123/stream" = true
      ∧ strContains c8ExpectedCommand "-metadata uid=\"abc123\"" = true
      ∧ (∀ (b : FFMPEG_Command_Builder) (t : IngestType) (src : SafeLink) (port : Int)
            (rootRepr : String) (b' : FFMPEG_Command_Builder) (cmd : String),
          b.ingest t src port rootRepr = .ok (b', cmd) →
          ∃ input_path,
            (t = .CAMERA → input_path = src.Hyperlink)
            ∧ (t = .NETWORKED_MP4 → input_path = rootRepr ++ src.URL)
            ∧ (t = .LOCAL_MP4 → input_path = src.URL)
            ∧ cmd = "ffmpeg -timeout " ++ toString b.timeout ++ " "
                ++ "-re -stream_loop -1 -i \"" ++ input_path ++ "\" "
                ++ "-c copy "
                ++ ("-metadata uid=\"" ++ b.UID ++ "\" "
                    ++ "-metadata linked_device=\"" ++ b.Linked_Device ++ "\" "
                    ++ "-metadata otp=\"" ++ b.OTP ++ "\"") ++ " "
                ++ "-f rtsp \"rtsp://127.0.0.1:" ++ toString port ++ "/"
                ++ b.UID ++ "/stream\"") := by
  refine ⟨rfl, by decide, by decide, ?_⟩
  intro b t src port rootRepr b' cmd h
  cases t with
  | YOLO => exact nomatch h
  | CAMERA =>
    have h' := Except.ok.inj h
    have hcmd := ((Prod.mk.injEq _ _ _ _).mp h').2
    exact ⟨src.Hyperlink, fun _ => rfl, fun ht => absurd ht (by decide), fun ht => absurd ht (by decide),
      hcmd.symm⟩
  | NETWORKED_MP4 =>
    have h' := Except.ok.inj h
    have hcmd := ((Prod.mk.injEq _ _ _ _).mp h').2
    exact ⟨rootRepr ++ src.URL, fun ht => absurd ht (by decide), fun _ => rfl,
      fun ht => absurd ht (by decide), hcmd.symm⟩
  | LOCAL_MP4 =>
    have h' := Except.ok.inj h
    have hcmd := ((Prod.mk.injEq _ _ _ _).mp h').2
    exact ⟨src.URL, fun ht => absurd ht (by decide), fun ht => absurd ht (by decide), fun _ => rfl,
      hcmd.symm⟩

/-- Witness for C8's universal part, at a concrete `LOCAL_MP4` synthesis
whose hypothesis is discharged by computation. -/
theorem C8_ingest_command_witness :
    ∃ input_path,
      (IngestType.LOCAL_MP4 = IngestType.CAMERA → input_path = exampleSource.Hyperlink)
      ∧ (IngestType.LOCAL_MP4 = IngestType.NETWORKED_MP4 →
          input_path = "BOUNDMETHOD" ++ exampleSource.URL)
      ∧ (IngestType.LOCAL_MP4 = IngestType.LOCAL_MP4 → input_path = exampleSource.URL)
      ∧ "ffmpeg -timeout 5000000 -re -stream_loop -1 -i \"mjpeg\" -c copy -metadata uid=\"abc123\" -metadata linked_device=\"dev1\" -metadata otp=\"otp1\" -f rtsp \"rtsp://127.0.0.1:8554/abc123/stream\""
        = "ffmpeg -timeout " ++ toString exampleBuilder.timeout ++ " "
          ++ "-re -stream_loop -1 -i \"" ++ input_path ++ "\" "
          ++ "-c copy "
          ++ ("-metadata uid=\"" ++ exampleBuilder.UID ++ "\" "
              ++ "-metadata linked_device=\"" ++ exampleBuilder.Linked_Device ++ "\" "
              ++ "-metadata otp=\"" ++ exampleBuilder.OTP ++ "\"") ++ " "
          ++ "-f rtsp \"rtsp://127.0.0.1:" ++ toString (8554 : Int) ++ "/"
          ++ exampleBuilder.UID ++ "/stream\"" :=
  C8_ingest_command.2.2.2 exampleBuilder .LOCAL_MP4 exampleSource 8554 "BOUNDMETHOD" _ _ rfl

/-! ## C9 — `Safe_Link` validation and hyperlink freshness -/

/-- `Update` re-establishes the hyperlink-freshness invariant: either a
field changed and the hyperlink is recomputed from the new fields, or
nothing changed and the old (consistent) state is kept. -/
theorem SafeLink_Update_consistent (ipOk : String → Bool) (l : SafeLink)
    (protocol host : Option String) (port : Option Int) (url : Option String)
    (ap : Option (List String)) (hcons : SafeLinkConsistent l) :
    SafeLinkConsistent (SafeLink.Update ipOk l protocol host port url ap) := by
  simp only [SafeLink.Update]
  repeat' split
  all_goals first | exact hcons | rfl

/-- An omitted protocol never changes the stored protocol. -/
theorem SafeLink_Update_protocol_none (ipOk : String → Bool) (l : SafeLink)
    (host : Option String) (port : Option Int) (url : Option String)
    (ap : Option (List String)) :
    (SafeLink.Update ipOk l none host port url ap).Protocol = l.Protocol := by
  simp only [SafeLink.Update]
  repeat' split
  all_goals rfl

/-- A supplied-but-invalid protocol never changes the stored protocol. -/
theorem SafeLink_Update_protocol_invalid (ipOk : String → Bool) (l : SafeLink)
    (p : String) (host : Option String) (port : Option Int) (url : Option String)
    (ap : Option (List String))
    (hbad : is_valid_protocol p (resolveAllowed l.allowed_protocols ap) = false) :
    (SafeLink.Update ipOk l (some p) host port url ap).Protocol = l.Protocol := by
  simp only [SafeLink.Update]
  repeat' split
  all_goals simp_all

/-- An omitted host never changes the stored host. -/
theorem SafeLink_Update_host_none (ipOk : String → Bool) (l : SafeLink)
    (protocol : Option String) (port : Option Int) (url : Option String)
    (ap : Option (List String)) :
    (SafeLink.Update ipOk l protocol none port url ap).Host = l.Host := by
  simp only [SafeLink.Update]
  repeat' split
  all_goals rfl

/-- A supplied-but-unsafe host never changes the stored host. -/
theorem SafeLink_Update_host_invalid (ipOk : String → Bool) (l : SafeLink)
    (protocol : Option String) (hst : String) (port : Option Int)
    (url : Option String) (ap : Option (List String))
    (hbad : is_safe_hostname ipOk hst = false) :
    (SafeLink.Update ipOk l protocol (some hst) port url ap).Host = l.Host := by
  simp only [SafeLink.Update]
  repeat' split
  all_goals simp_all

/-- An omitted port never changes the stored port. -/
theorem SafeLink_Update_port_none (ipOk : String → Bool) (l : SafeLink)
    (protocol host : Option String) (url : Option String)
    (ap : Option (List String)) :
    (SafeLink.Update ipOk l protocol host none url ap).Port = l.Port := by
  simp only [SafeLink.Update]
  repeat' split
  all_goals rfl

/-- A supplied-but-invalid port never changes the stored port. -/
theorem SafeLink_Update_port_invalid (ipOk : String → Bool) (l : SafeLink)
    (protocol host : Option String) (pp : Int) (url : Option String)
    (ap : Option (List String)) (hbad : is_valid_port (some pp) = false) :
    (SafeLink.Update ipOk l protocol host (some pp) url ap).Port = l.Port := by
  simp only [SafeLink.Update]
  repeat' split
  all_goals simp_all

/-- **C9.** Construction and update of an endpoint address are total (the
embedding never needs an error case): an invalid protocol, host or port is
replaced by the safe default at construction and ignored — keeping the
previous valid value — on update; and after every constructor or update
call the stored hyperlink equals the rendering of the currently stored
protocol, host, port and path, for every `ipaddress` oracle. -/
theorem C9_safelink_invariant :
    (∀ (ipOk : String → Bool) (protocol host : String) (port : Option Int)
        (path : String) (ap : Option (List String)),
      SafeLinkConsistent (SafeLink.init ipOk protocol host port path ap)
        ∧ (is_valid_protocol protocol (resolveAllowed SafeLink.ALLOWED_PROTOCOLS ap) = false →
            (SafeLink.init ipOk protocol host port path ap).Protocol = SafeLink.DEFAULT_PROTOCOL)
        ∧ (is_valid_protocol protocol (resolveAllowed SafeLink.ALLOWED_PROTOCOLS ap) = true →
            (SafeLink.init ipOk protocol host port path ap).Protocol = protocol)
        ∧ (is_safe_hostname ipOk host = false →
            (SafeLink.init ipOk protocol host port path ap).Host = SafeLink.DEFAULT_HOST)
        ∧ (is_safe_hostname ipOk host = true →
            (SafeLink.init ipOk protocol host port path ap).Host = host)
        ∧ (is_valid_port port = false →
            (SafeLink.init ipOk protocol host port path ap).Port = none)
        ∧ (is_valid_port port = true →
            (SafeLink.init ipOk protocol host port path ap).Port = port))
    ∧ (∀ (ipOk : String → Bool) (l : SafeLink) (protocol host : Option String)
          (port : Option Int) (url : Option String) (ap : Option (List String)),
        SafeLinkConsistent l →
        SafeLinkConsistent (SafeLink.Update ipOk l protocol host port url ap)
          ∧ (protocol = none →
              (SafeLink.Update ipOk l protocol host port url ap).Protocol = l.Protocol)
          ∧ (∀ p, protocol = some p →
              is_valid_protocol p (resolveAllowed l.allowed_protocols ap) = false →
              (SafeLink.Update ipOk l protocol host port url ap).Protocol = l.Protocol)
          ∧ (host = none →
              (SafeLink.Update ipOk l protocol host port url ap).Host = l.Host)
          ∧ (∀ hst, host = some hst → is_safe_hostname ipOk hst = false →
              (SafeLink.Update ipOk l protocol host port url ap).Host = l.Host)
          ∧ (port = none →
              (SafeLink.Update ipOk l protocol host port url ap).Port = l.Port)
          ∧ (∀ p, port = some p → is_valid_port (some p) = false →
              (SafeLink.Update ipOk l protocol host port url ap).Port = l.Port)) := by
  constructor
  · intro ipOk protocol host port path ap
    refine ⟨rfl, ?_, ?_, ?_, ?_, ?_, ?_⟩ <;> intro h <;>
      simp [SafeLink.init, h]
  · intro ipOk l protocol host port url ap hcons
    refine ⟨SafeLink_Update_consistent ipOk l protocol host port url ap hcons,
      ?_, ?_, ?_, ?_, ?_, ?_⟩
    · intro hp; subst hp
      exact SafeLink_Update_protocol_none ipOk l host port url ap
    · intro p hp hbad; subst hp
      exact SafeLink_Update_protocol_invalid ipOk l p host port url ap hbad
    · intro hh; subst hh
      exact SafeLink_Update_host_none ipOk l protocol port url ap
    · intro hst hh hbad; subst hh
      exact SafeLink_Update_host_invalid ipOk l protocol hst port url ap hbad
    · intro hp; subst hp
      exact SafeLink_Update_port_none ipOk l protocol host url ap
    · intro p hp hbad; subst hp
      exact SafeLink_Update_port_invalid ipOk l protocol host p url ap hbad

/-- Witness for C9: an invalid construction falls back to the defaults
(and stays consistent), and an update with an invalid protocol keeps the
previous one. -/
theorem C9_safelink_invariant_witness :
    (SafeLink.init ipOkExample "ftp" "bad host!" (some 70000) "p" none).Protocol = "http"
      ∧ (SafeLink.init ipOkExample "ftp" "bad host!" (some 70000) "p" none).Host
        = "127.0.0.1"
      ∧ (SafeLink.init ipOkExample "ftp" "bad host!" (some 70000) "p" none).Port = none
      ∧ SafeLinkConsistent
          (SafeLink.Update ipOkExample exampleSource (some "gopher") none none none none)
      ∧ (SafeLink.Update ipOkExample exampleSource (some "gopher") none none none none).Protocol
        = exampleSource.Protocol := by
  have hinit := C9_safelink_invariant.1 ipOkExample "ftp" "bad host!" (some 70000) "p" none
  have hupd := C9_safelink_invariant.2 ipOkExample exampleSource (some "gopher")
    none none none none rfl
  exact ⟨hinit.2.1 (by decide), hinit.2.2.2.1 (by decide), hinit.2.2.2.2.2.1 (by decide),
    hupd.1, hupd.2.2.1 "gopher" rfl (by decide)⟩

/-- Witness for C10: a negative timeout, an empty uid and an omitted otp
all leave the builder's corresponding fields (and `Linked_Device`)
untouched. -/
theorem C10_update_metadata_frame_witness :
    (exampleBuilder.update_metadata (some (-5)) (some "") none).UID = exampleBuilder.UID
      ∧ (exampleBuilder.update_metadata (some (-5)) (some "") none).OTP = exampleBuilder.OTP
      ∧ (exampleBuilder.update_metadata (some (-5)) (some "") none).timeout
        = exampleBuilder.timeout
      ∧ (exampleBuilder.update_metadata (some (-5)) (some "") none).Linked_Device
        = exampleBuilder.Linked_Device := by
  have h := C10_update_metadata_frame exampleBuilder (some (-5)) (some "") none
  exact ⟨h.2.1 (Or.inr rfl), h.2.2.1 (Or.inl rfl),
    h.1 (Or.inr ⟨-5, rfl, by decide⟩), h.2.2.2.1⟩
